import Mathlib

/-!
Formal verification of the page-interaction utilities of a portfolio site
(`professional-script.js`): the `debounce` and `throttle` rate limiters, the
IntersectionObserver-driven reveal trigger set up by `initScrollAnimations`,
and the `safeQuerySelector` / `safeQuerySelectorAll` wrappers.

The JavaScript runs on a single-threaded event loop with a timer table
(`setTimeout` / `clearTimeout`).  Time is modelled as `Nat`; a run is a
chronological sequence of external `trigger` calls `(time, args)`, and a due
timer callback runs before any external call at a later-or-equal time.
Arguments of a call are modelled as a single value of an arbitrary type `α`
(covering the argument list and, for `throttle`, the receiver context).
-/

namespace Portfolio

/-- An exception of the host JavaScript environment: resolving a missing
global identifier raises a `ReferenceError`; `document.querySelector` raises
a `SyntaxError` on an invalid selector. -/
inductive JSException where
  | referenceError (name : String)
  | syntaxError (msg : String)
deriving DecidableEq, Repr

/-! ## Debounce: timeline model

Source (`professional-script.js`, lines 21–31):

```js
const debounce = (func, wait) => {
    let timeout;
    return function executedFunction(...args) {
        const later = () => {
            clearTimeout(timeout);
            func(...args);
        };
        clearTimeout(timeout);
        timeout = setTimeout(later, wait);
    };
};
```

At any moment the closure has at most the one timer last stored in `timeout`
armed (every call clears the previous one before arming a new one; this is
proved against a full timer-table model below, `DTimers`).  So the event-loop
state reduces to the pending scheduled invocation, if any, plus the log of
`func` invocations performed so far.  `later` reads `timeout` at fire time;
since any newer `trigger` call would have cleared the firing timer, `timeout`
then still holds the id of the timer that is firing, and its
`clearTimeout(timeout)` is a no-op that cannot cancel a distinct live timer.
-/

/-- Event-loop state of one debounced callable: `pending` is the scheduled
invocation `(fireTime, args)` armed by the last `trigger` call (if it has not
yet fired), `fired` is the chronological log of performed `func(...args)`
invocations as `(fireTime, args)` pairs. -/
structure DState (α : Type) where
  pending : Option (Nat × α)
  fired : List (Nat × α)
deriving DecidableEq, Repr

/-- One `trigger(...args)` call at time `t`.  First the event loop delivers
the pending timer if it was due (`fireTime ≤ t`): that runs `later`, i.e.
`func` with the captured args.  Then the body runs: `clearTimeout(timeout)`
cancels the pending timer if it is still armed (a no-op otherwise), and
`timeout = setTimeout(later, wait)` arms a new timer at `t + wait` capturing
the current args. -/
def dTrigger (wait : Nat) (s : DState α) (t : Nat) (a : α) : DState α :=
  let fired :=
    match s.pending with
    | some p => if p.1 ≤ t then s.fired ++ [p] else s.fired
    | none => s.fired
  { pending := some (t + wait, a), fired := fired }

/-- After the last external call the event loop runs to quiescence: a still
armed timer fires (nothing remains to cancel it). -/
def dFlush (s : DState α) : List (Nat × α) :=
  match s.pending with
  | some p => s.fired ++ [p]
  | none => s.fired

/-- The complete invocation log of `func` produced by a chronological
sequence of `trigger` calls to one debounced callable, the event loop then
running to quiescence. -/
def debounceRun (wait : Nat) (calls : List (Nat × α)) : List (Nat × α) :=
  dFlush (calls.foldl (fun s c => dTrigger wait s c.1 c.2) ⟨none, []⟩)

/-- Processing a burst (consecutive calls strictly increasing in time and
spaced less than `wait` apart) from a state whose pending timer is the one
armed by the burst's previous call leaves the log untouched and ends with
only the timer of the burst's last call armed. -/
theorem dTrigger_burst_foldl (wait : Nat) (c : Nat × α) (l : List (Nat × α))
    (log : List (Nat × α))
    (h : List.Chain (fun p q => p.1 < q.1 ∧ q.1 < p.1 + wait) c l) :
    dFlush (l.foldl (fun s c' => dTrigger wait s c'.1 c'.2)
        ⟨some (c.1 + wait, c.2), log⟩)
      = log ++ [((l.getLastD c).1 + wait, (l.getLastD c).2)] := by
  induction l generalizing c log with
  | nil => simp [dFlush]
  | cons d l ih =>
    rcases h with _ | ⟨⟨hlt, hgap⟩, hdl⟩
    have hnotdue : ¬ (c.1 + wait ≤ d.1) := by omega
    rw [List.foldl_cons]
    have hstep : dTrigger wait ⟨some (c.1 + wait, c.2), log⟩ d.1 d.2
        = ⟨some (d.1 + wait, d.2), log⟩ := by
      simp [dTrigger, hnotdue]
    rw [hstep, ih d log hdl, List.getLastD_cons]

/-- Claim C1: for every nonempty chronological sequence of calls to the
callable returned by `debounce(action, wait)` whose consecutive calls are
spaced less than `wait` time units apart, `action` is invoked exactly once,
at `wait` time units after the last call, with the last call's arguments. -/
theorem debounce_burst_single_invocation (wait : Nat) (c : Nat × α)
    (l : List (Nat × α))
    (h : List.Chain (fun p q => p.1 < q.1 ∧ q.1 < p.1 + wait) c l) :
    debounceRun wait (c :: l)
      = [((l.getLastD c).1 + wait, (l.getLastD c).2)] := by
  unfold debounceRun
  rw [List.foldl_cons]
  have hstep : dTrigger wait (⟨none, []⟩ : DState α) c.1 c.2
      = ⟨some (c.1 + wait, c.2), []⟩ := by
    simp [dTrigger]
  rw [hstep]
  simpa using dTrigger_burst_foldl wait c l [] h

/-- Witness for C1: `debounce(fn, 100)` called at t = 0, 30, 60 fires `fn`
exactly once, at t = 160, with the arguments of the t = 60 call. -/
theorem debounce_burst_single_invocation_witness :
    debounceRun 100 [((0 : Nat), (10 : Nat)), (30, 20), (60, 30)]
      = [(160, 30)] :=
  debounce_burst_single_invocation 100 (0, 10) [(30, 20), (60, 30)] (by simp [List.chain_cons])

/-- Processing calls each spaced more than `wait` after the previous one,
starting from the state armed by the previous call, fires every pending
timer before the next call arrives: one invocation per call. -/
theorem dTrigger_spread_foldl (wait : Nat) (c : Nat × α) (l : List (Nat × α))
    (log : List (Nat × α))
    (h : List.Chain (fun p q => p.1 + wait < q.1) c l) :
    dFlush (l.foldl (fun s c' => dTrigger wait s c'.1 c'.2)
        ⟨some (c.1 + wait, c.2), log⟩)
      = log ++ (c :: l).map (fun x => (x.1 + wait, x.2)) := by
  induction l generalizing c log with
  | nil => simp [dFlush]
  | cons d l ih =>
    rcases h with _ | ⟨hgap, hdl⟩
    have hdue : c.1 + wait ≤ d.1 := le_of_lt hgap
    rw [List.foldl_cons]
    have hstep : dTrigger wait ⟨some (c.1 + wait, c.2), log⟩ d.1 d.2
        = ⟨some (d.1 + wait, d.2), log ++ [(c.1 + wait, c.2)]⟩ := by
      simp [dTrigger, hdue]
    rw [hstep, ih d (log ++ [(c.1 + wait, c.2)]) hdl]
    simp

/-- Claim C5: for every chronological sequence of calls to the callable
returned by `debounce(action, wait)` whose consecutive calls are spaced more
than `wait` time units apart, `action` is invoked exactly once per call —
each time `wait` units after that call, with that call's arguments. -/
theorem debounce_spread_one_invocation_per_call (wait : Nat) (c : Nat × α)
    (l : List (Nat × α))
    (h : List.Chain (fun p q => p.1 + wait < q.1) c l) :
    debounceRun wait (c :: l) = (c :: l).map (fun x => (x.1 + wait, x.2)) := by
  unfold debounceRun
  rw [List.foldl_cons]
  have hstep : dTrigger wait (⟨none, []⟩ : DState α) c.1 c.2
      = ⟨some (c.1 + wait, c.2), []⟩ := by
    simp [dTrigger]
  rw [hstep]
  simpa using dTrigger_spread_foldl wait c l [] h

/-- Witness for C5: `debounce(fn, 5)` called at t = 0 and t = 10 fires `fn`
twice, at t = 5 with the first call's arguments and at t = 15 with the
second call's. -/
theorem debounce_spread_one_invocation_per_call_witness :
    debounceRun 5 [((0 : Nat), (1 : Nat)), (10, 2)] = [(5, 1), (15, 2)] :=
  debounce_spread_one_invocation_per_call 5 (0, 1) [(10, 2)] (by simp [List.chain_cons])

/-! ## Throttle

Source (`professional-script.js`, lines 34–45):

```js
const throttle = (func, limit) => {
    let inThrottle;
    return function() {
        const args = arguments;
        const context = this;
        if (!inThrottle) {
            func.apply(context, args);
            inThrottle = true;
            setTimeout(() => inThrottle = false, limit);
        }
    };
};
```

`inThrottle` starts out `undefined` (falsy); a leading call sets it and arms
one reset timer which clears it `limit` units later.  The event-loop state is
therefore the pending reset time, if any (`inThrottle` is true exactly while
a reset timer with a future fire time is pending), plus the log of `func`
invocations. -/

/-- Event-loop state of one throttled callable: `resetAt = some r` means
`inThrottle` is currently `true` and the armed `() => inThrottle = false`
timer fires at time `r`; `resetAt = none` means `inThrottle` is falsy (and
no reset timer is armed).  `invoked` logs the `func.apply(context, args)`
invocations as `(time, args)` pairs. -/
structure TState (α : Type) where
  resetAt : Option Nat
  invoked : List (Nat × α)
deriving DecidableEq, Repr

/-- One `trigger` call at time `t`.  The event loop first delivers the reset
timer if it was due (`r ≤ t`), setting `inThrottle` back to `false`.  Then
the body runs: if `inThrottle` is still true the call is dropped — its
arguments are discarded, nothing is queued; otherwise `func` runs
synchronously at `t` with this call's own arguments (and receiver context),
`inThrottle` is set, and a reset timer is armed at `t + limit`. -/
def tTrigger (limit : Nat) (s : TState α) (t : Nat) (a : α) : TState α :=
  match s.resetAt with
  | some r =>
    if t < r then s
    else { resetAt := some (t + limit), invoked := s.invoked ++ [(t, a)] }
  | none => { resetAt := some (t + limit), invoked := s.invoked ++ [(t, a)] }

/-- The complete invocation log of `func` produced by a chronological
sequence of `trigger` calls to one throttled callable.  (The trailing reset
timer only clears the flag; letting it fire adds nothing to the log.) -/
def throttleRun (limit : Nat) (calls : List (Nat × α)) : List (Nat × α) :=
  (calls.foldl (fun s c => tTrigger limit s c.1 c.2) ⟨none, []⟩).invoked

/-- Every call strictly before the pending reset time is dropped and leaves
the state untouched. -/
theorem tTrigger_drop_foldl (limit r : Nat) (log : List (Nat × α))
    (l : List (Nat × α)) (h : ∀ q ∈ l, q.1 < r) :
    l.foldl (fun s c => tTrigger limit s c.1 c.2) ⟨some r, log⟩
      = ⟨some r, log⟩ := by
  induction l with
  | nil => rfl
  | cons d l ih =>
    rw [List.foldl_cons]
    have hd : d.1 < r := h d (List.mem_cons_self d l)
    have hstep : tTrigger limit (⟨some r, log⟩ : TState α) d.1 d.2
        = ⟨some r, log⟩ := by
      simp [tTrigger, hd]
    rw [hstep]
    exact ih fun q hq => h q (List.mem_cons_of_mem d hq)

/-- Claim C2: for the callable returned by `throttle(action, limit)`, any
chronological burst of calls all arriving before the first call's cooldown
expires (in particular any N calls within a window shorter than `limit`)
results in exactly one invocation of `action`, performed synchronously at
the time of the first call with that call's own arguments; the remaining
calls are dropped entirely — their arguments are discarded, not queued. -/
theorem throttle_burst_single_invocation (limit : Nat) (c : Nat × α)
    (l : List (Nat × α))
    (_hchron : List.Chain (fun p q => p.1 ≤ q.1) c l)
    (hwin : ∀ q ∈ l, q.1 < c.1 + limit) :
    throttleRun limit (c :: l) = [(c.1, c.2)] := by
  unfold throttleRun
  rw [List.foldl_cons]
  have hstep : tTrigger limit (⟨none, []⟩ : TState α) c.1 c.2
      = ⟨some (c.1 + limit), [(c.1, c.2)]⟩ := by
    simp [tTrigger]
  rw [hstep, tTrigger_drop_foldl limit (c.1 + limit) [(c.1, c.2)] l hwin]

/-- Witness for C2: `throttle(fn, 100)` called at t = 0, 10, 20 invokes `fn`
exactly once, at t = 0, with the t = 0 call's arguments. -/
theorem throttle_burst_single_invocation_witness :
    throttleRun 100 [((0 : Nat), (7 : Nat)), (10, 8), (20, 9)] = [(0, 7)] :=
  throttle_burst_single_invocation 100 (0, 7) [(10, 8), (20, 9)]
    (by simp [List.chain_cons]) (by simp)

/-- Claim C4: the first call to arrive at or after the pending cooldown's
expiry runs immediately with its own arguments and starts a new cooldown.
In particular calls at times 0 and L+1 under `throttle(action, L)` produce
exactly two invocations, and `throttle(fn, 16)` called at t = 0, 5, 10, 20
invokes `fn` exactly at t = 0 and t = 20 with the respective call's
arguments, the t = 5 and t = 10 calls producing no invocation. -/
theorem throttle_reopens_after_cooldown (α : Type) :
    (∀ (L : Nat) (a b : α),
      throttleRun L [(0, a), (L + 1, b)] = [(0, a), (L + 1, b)]) ∧
    (∀ a b c d : α,
      throttleRun 16 [(0, a), (5, b), (10, c), (20, d)] = [(0, a), (20, d)]) ∧
    (∀ (limit r t : Nat) (log : List (Nat × α)) (a : α), r ≤ t →
      tTrigger limit ⟨some r, log⟩ t a
        = ⟨some (t + limit), log ++ [(t, a)]⟩) := by
  refine ⟨fun L a b => ?_, fun a b c d => ?_, fun limit r t log a hrt => ?_⟩
  · have h1 : ¬ (L + 1 < 0 + L) := by omega
    simp [throttleRun, tTrigger, h1]
  · norm_num [throttleRun, tTrigger]
  · have h1 : ¬ (t < r) := by omega
    simp [tTrigger, h1]

/-- Witness for C4: `throttle(fn, 10)` called at t = 0 and t = 11 invokes
`fn` twice; `throttle(fn, 16)` at t = 0, 5, 10, 20 invokes it at t = 0 and
t = 20 only; and a call at t = 7 against a cooldown that expired at t = 5
runs immediately and arms a new cooldown until t = 23. -/
theorem throttle_reopens_after_cooldown_witness :
    throttleRun 10 [((0 : Nat), (1 : Nat)), (11, 2)] = [(0, 1), (11, 2)] ∧
    throttleRun 16 [((0 : Nat), (1 : Nat)), (5, 2), (10, 3), (20, 4)]
      = [(0, 1), (20, 4)] ∧
    tTrigger 16 ⟨some 5, []⟩ 7 (9 : Nat) = ⟨some 23, [(7, 9)]⟩ :=
  ⟨(throttle_reopens_after_cooldown Nat).1 10 1 2,
   (throttle_reopens_after_cooldown Nat).2.1 1 2 3 4,
   (throttle_reopens_after_cooldown Nat).2.2 16 5 7 [] 9 (by omega)⟩

/-! ## VisibilityTrigger: the IntersectionObserver reveal callback

Source (`professional-script.js`, lines 183–216):

```js
const initScrollAnimations = () => {
    if (!('IntersectionObserver' in window)) {
        console.warn('Intersection Observer not supported');
        return;
    }
    const observerOptions = { threshold: 0.1, rootMargin: "0px 0px -50px 0px" };
    const observer = new IntersectionObserver((entries) => {
        entries.forEach(entry => {
            if (entry.isIntersecting) {
                entry.target.style.opacity = "1";
                entry.target.style.transform = "translateY(0)";
                entry.target.classList.add("animated");
                observer.unobserve(entry.target);
            }
        });
    }, observerOptions);
    const animatedElements = safeQuerySelectorAll(".skill-card, ...");
    animatedElements.forEach(el => { ...styles...; observer.observe(el); });
};
```

Elements are modelled as `Nat` ids.  The IntersectionObserver runtime keeps
the list of currently observed targets; each notification delivers a batch
of entries `(target, isIntersecting)`, one entry at most per target (the
runtime computes each observed target's intersection status once per check,
`isIntersecting` meaning the visible fraction reached the threshold), and
only for targets observed when the batch is generated.  The reveal action is
the style mutation plus `classList.add("animated")`; firing it is logged by
appending the target to `fired`. -/

/-- State of the observer: `observed` is the runtime's list of watched
targets, `fired` the chronological log of reveal actions performed. -/
structure ObsState where
  observed : List Nat
  fired : List Nat
deriving DecidableEq, Repr

/-- The observer callback on one batch of entries: for each entry in batch
order, if it is intersecting the reveal action runs on its target and
`observer.unobserve(entry.target)` removes the target from observation;
non-intersecting entries are ignored. -/
def ioCallback (s : ObsState) (entries : List (Nat × Bool)) : ObsState :=
  entries.foldl
    (fun s e =>
      if e.2 then
        { observed := s.observed.erase e.1, fired := s.fired ++ [e.1] }
      else s)
    s

/-- A batch the IntersectionObserver runtime can deliver in state `s`: every
entry concerns a currently observed target, and no target gets two entries
in one notification. -/
def ValidBatch (s : ObsState) (entries : List (Nat × Bool)) : Prop :=
  (∀ e ∈ entries, e.1 ∈ s.observed) ∧ (entries.map Prod.fst).Nodup

/-- One observation notification: the runtime delivers a valid batch and the
callback processes it. -/
inductive ObsStep : ObsState → ObsState → Prop
  | deliver (s : ObsState) (entries : List (Nat × Bool))
      (hv : ValidBatch s entries) : ObsStep s (ioCallback s entries)

/-- States the observer can reach from `init` through notifications. -/
def ObsReachable (init s : ObsState) : Prop :=
  Relation.ReflTransGen ObsStep init s

/-- The one-shot invariant: observed targets are pairwise distinct, no
reveal has run twice, and a revealed target is no longer observed. -/
def ObsInv (s : ObsState) : Prop :=
  s.observed.Nodup ∧ s.fired.Nodup ∧ ∀ e ∈ s.fired, e ∉ s.observed

/-- Processing a batch of pairwise-distinct, currently observed targets
preserves the one-shot invariant. -/
theorem ioCallback_preserves_inv (entries : List (Nat × Bool)) (s : ObsState)
    (hinv : ObsInv s) (hmem : ∀ e ∈ entries, e.1 ∈ s.observed)
    (hnd : (entries.map Prod.fst).Nodup) :
    ObsInv (ioCallback s entries) := by
  induction entries generalizing s with
  | nil => exact hinv
  | cons e rest ih =>
    obtain ⟨hobs, hfir, hdisj⟩ := hinv
    rw [List.map_cons, List.nodup_cons] at hnd
    obtain ⟨hehd, hndrest⟩ := hnd
    unfold ioCallback
    rw [List.foldl_cons]
    by_cases hb : e.2
    · have hein : e.1 ∈ s.observed := hmem e (List.mem_cons_self e rest)
      have hstep :
          (if e.2 then
            ({ observed := s.observed.erase e.1, fired := s.fired ++ [e.1] }
              : ObsState)
          else s)
          = { observed := s.observed.erase e.1, fired := s.fired ++ [e.1] } :=
        if_pos hb
      rw [hstep]
      refine ih _ ⟨hobs.erase e.1, ?_, ?_⟩ ?_ hndrest
      · rw [List.nodup_append]
        refine ⟨hfir, List.nodup_singleton e.1, ?_⟩
        intro x hx hx1
        rw [List.mem_singleton] at hx1
        exact hdisj x hx (hx1 ▸ hein)
      · intro x hx
        rcases List.mem_append.1 hx with hx | hx
        · exact fun hc => hdisj x hx (List.mem_of_mem_erase hc)
        · rw [List.mem_singleton] at hx
          subst hx
          exact fun hc => (hobs.mem_erase_iff.1 hc).1 rfl
      · intro q hq
        have hq1 : q.1 ∈ s.observed := hmem q (List.mem_cons_of_mem e hq)
        have hne : q.1 ≠ e.1 := by
          intro hc
          exact hehd (hc ▸ List.mem_map_of_mem Prod.fst hq)
        exact hobs.mem_erase_iff.2 ⟨hne, hq1⟩
    · have hstep :
          (if e.2 then
            ({ observed := s.observed.erase e.1, fired := s.fired ++ [e.1] }
              : ObsState)
          else s) = s := if_neg hb
      rw [hstep]
      exact ih s ⟨hobs, hfir, hdisj⟩
        (fun q hq => hmem q (List.mem_cons_of_mem e hq)) hndrest

/-- Claim C3: starting from a freshly observed set of (distinct) elements,
in every reachable observer state the reveal log contains each element at
most once and every revealed element is out of observation: once an
element's reveal fires it is permanently unobserved and can never fire
again — no triggered-to-pending transition exists, and later visibility
changes of a revealed element produce no entries for it. -/
theorem visibility_trigger_one_shot (E : List Nat) (hE : E.Nodup)
    (s : ObsState) (h : ObsReachable ⟨E, []⟩ s) :
    s.fired.Nodup ∧ ∀ e ∈ s.fired, e ∉ s.observed := by
  have hinv : ObsInv s := by
    induction h with
    | refl => exact ⟨hE, List.nodup_nil, by simp⟩
    | tail hreach hstep ih =>
      rcases hstep with ⟨entries, hv1, hv2⟩
      exact ioCallback_preserves_inv entries _ ih hv1 hv2
  exact ⟨hinv.2.1, hinv.2.2⟩

/-- Witness for C3: observing `{0, 1}`, one notification in which only
element 0 intersects reveals 0, removes it from observation, and the
invariant holds in the resulting state. -/
theorem visibility_trigger_one_shot_witness :
    ((⟨[1], [0]⟩ : ObsState).fired.Nodup ∧
      ∀ e ∈ (⟨[1], [0]⟩ : ObsState).fired,
        e ∉ (⟨[1], [0]⟩ : ObsState).observed) :=
  visibility_trigger_one_shot [0, 1] (by decide) ⟨[1], [0]⟩
    (Relation.ReflTransGen.single
      (show ObsStep ⟨[0, 1], []⟩ ⟨[1], [0]⟩ from
        ObsStep.deliver ⟨[0, 1], []⟩ [(0, true)] ⟨by decide, by decide⟩))

/-! ## Capability detection in `initScrollAnimations` -/

/-- The guard and setup of `initScrollAnimations`: if the host has no
`IntersectionObserver` the function warns and returns before constructing
an observer — `none`; otherwise it constructs the observer and observes
every animated element, none yet revealed. -/
def initScrollAnimations (hasIntersectionObserver : Bool)
    (animatedElements : List Nat) : Option ObsState :=
  if hasIntersectionObserver then
    some { observed := animatedElements, fired := [] }
  else
    none

/-- Reveal actions performed over a whole page lifetime: the observer (if
one was created) processes each delivered batch in turn; with no observer
no callback can ever run. -/
def revealsAfterBatches (hasIntersectionObserver : Bool) (elems : List Nat)
    (batches : List (List (Nat × Bool))) : List Nat :=
  match initScrollAnimations hasIntersectionObserver elems with
  | some s => (batches.foldl ioCallback s).fired
  | none => []

/-- Claim C6: without the visibility-observation capability,
`initScrollAnimations` returns without error having created no observer: no
element is watched, and whatever visibility changes later occur, no reveal
action ever fires. -/
theorem no_intersection_observer_is_noop (elems : List Nat)
    (batches : List (List (Nat × Bool))) :
    initScrollAnimations false elems = none ∧
    revealsAfterBatches false elems batches = [] := by
  exact ⟨rfl, rfl⟩

/-! ## Debounce: timer-table model

The timeline model above collapses the timer table into one `Option`.  To
prove the at-most-one-outstanding-timer side effect without assuming it, the
runtime is modelled explicitly here: `setTimeout` adds a fresh-id timer to
the table and returns the id, `clearTimeout id` removes the timer with that
id if still present (it is a no-op on `undefined` or on an already fired or
cleared id), and the runtime removes a timer from the table when it fires. -/

/-- Timer-table state of one debounced callable: `timeoutVar` is the closure
variable `timeout` (the id returned by the last `setTimeout`, `none` before
the first call), `live` the armed, not yet fired or cleared timers of this
closure as `(id, fireTime, args)`, `nextId` the runtime's fresh-id source. -/
structure DTimers (α : Type) where
  timeoutVar : Option Nat
  live : List (Nat × Nat × α)
  nextId : Nat
deriving DecidableEq, Repr

/-- `clearTimeout` on a stored id: removes that timer if still live; called
with `undefined` (before any `setTimeout`) it is a no-op. -/
def clearTimeoutT (live : List (Nat × Nat × α)) : Option Nat →
    List (Nat × Nat × α)
  | some id => live.filter (fun tm => tm.1 ≠ id)
  | none => live

/-- The body of a `trigger` call at time `t`: `clearTimeout(timeout)` then
`timeout = setTimeout(later, wait)`, which arms a fresh timer at `t + wait`
and stores its id. -/
def dTriggerT (wait t : Nat) (a : α) (s : DTimers α) : DTimers α :=
  { timeoutVar := some s.nextId
    live := clearTimeoutT s.live s.timeoutVar ++ [(s.nextId, t + wait, a)]
    nextId := s.nextId + 1 }

/-- A live timer fires: the runtime removes it from the table and runs
`later`, whose `clearTimeout(timeout)` then removes whatever timer the
closure variable still names (a no-op when, as proved below, that is the
timer that just fired); `func(...args)` affects no timer state. -/
def dFireT (id : Nat) (s : DTimers α) : DTimers α :=
  { s with
    live := clearTimeoutT (s.live.filter (fun tm => tm.1 ≠ id)) s.timeoutVar }

/-- Event-loop steps of one debounced callable: an external `trigger` call
at any time, or the firing of one of its live timers. -/
inductive DTimerStep (wait : Nat) : DTimers α → DTimers α → Prop
  | trigger (t : Nat) (a : α) (s : DTimers α) :
      DTimerStep wait s (dTriggerT wait t a s)
  | fire (id : Nat) (s : DTimers α) (h : ∃ tm ∈ s.live, tm.1 = id) :
      DTimerStep wait s (dFireT id s)

/-- Auxiliary invariant: every live timer of the closure is the one named by
the `timeout` variable, and at most one timer is outstanding. -/
def DTInv (s : DTimers α) : Prop :=
  (∀ tm ∈ s.live, some tm.1 = s.timeoutVar) ∧ s.live.length ≤ 1

/-- When every live timer is the one named by `timeout`,
`clearTimeout(timeout)` empties the table: this is the cancel-before-arm
step of each `trigger` call. -/
theorem clearTimeoutT_of_named (live : List (Nat × Nat × α))
    (tv : Option Nat) (h : ∀ tm ∈ live, some tm.1 = tv) :
    clearTimeoutT live tv = [] := by
  cases tv with
  | none =>
    cases live with
    | nil => rfl
    | cons hd tl =>
      exact absurd (h hd (List.mem_cons_self hd tl)) (by simp)
  | some v =>
    simp only [clearTimeoutT, List.filter_eq_nil_iff]
    intro tm htm
    have := h tm htm
    simp_all

/-- `clearTimeout` only removes timers. -/
theorem mem_of_mem_clearTimeoutT (live : List (Nat × Nat × α))
    (tv : Option Nat) (tm : Nat × Nat × α) (h : tm ∈ clearTimeoutT live tv) :
    tm ∈ live := by
  cases tv with
  | none => exact h
  | some v => exact List.mem_of_mem_filter h

/-- The auxiliary invariant is preserved by every event-loop step: a
`trigger` call first empties the table (cancel) and then arms exactly one
fresh timer; a firing timer only leaves the table. -/
theorem dTimerStep_preserves_inv (wait : Nat) (s s' : DTimers α)
    (hstep : DTimerStep wait s s') (hinv : DTInv s) : DTInv s' := by
  obtain ⟨hvar, hlen⟩ := hinv
  rcases hstep with ⟨t, a, s⟩ | ⟨id, s, hlive⟩
  · have hclear : clearTimeoutT s.live s.timeoutVar = [] :=
      clearTimeoutT_of_named s.live s.timeoutVar hvar
    constructor
    · intro tm htm
      simp only [dTriggerT, hclear, List.nil_append, List.mem_singleton]
        at htm
      subst htm
      rfl
    · simp [dTriggerT, hclear]
  · constructor
    · intro tm htm
      have hmem : tm ∈ s.live :=
        List.mem_of_mem_filter
          (mem_of_mem_clearTimeoutT _ s.timeoutVar tm htm)
      exact hvar tm hmem
    · have h1 : (clearTimeoutT (s.live.filter (fun tm => tm.1 ≠ id))
          s.timeoutVar).length ≤ (s.live.filter (fun tm => tm.1 ≠ id)).length
          := by
        cases s.timeoutVar with
        | none => exact le_refl _
        | some v => exact List.length_filter_le _ _
      have h2 : (s.live.filter (fun tm => tm.1 ≠ id)).length ≤ s.live.length :=
        List.length_filter_le _ _
      exact le_trans (le_trans h1 h2) hlen

/-- Claim C7: in every state reachable by any sequence of `trigger` calls
and timer firings of one debounced callable, at most one of its timers is
outstanding: every call cancels the previously armed timer before arming a
new one, so no timers leak and a single burst cannot double-invoke the
action (the exactly-once behaviour of a burst is `debounceRun`'s
`debounce_burst_single_invocation`). -/
theorem debounce_at_most_one_outstanding_timer (wait : Nat) (s : DTimers α)
    (h : Relation.ReflTransGen (DTimerStep wait) ⟨none, [], 0⟩ s) :
    s.live.length ≤ 1 := by
  have hinv : DTInv s := by
    induction h with
    | refl => exact ⟨by simp, by simp⟩
    | tail hreach hstep ih => exact dTimerStep_preserves_inv wait _ _ hstep ih
  exact hinv.2

/-- Witness for C7: after `trigger` calls at t = 0 and t = 3 (the second
cancelling the first's timer and arming its own, id 1, due at t = 103), one
timer is outstanding. -/
theorem debounce_at_most_one_outstanding_timer_witness :
    (⟨some 1, [(1, 103, (7 : Nat))], 2⟩ : DTimers Nat).live.length ≤ 1 :=
  debounce_at_most_one_outstanding_timer 100 ⟨some 1, [(1, 103, 7)], 2⟩
    (Relation.ReflTransGen.tail
      (Relation.ReflTransGen.single
        (show DTimerStep 100 ⟨none, [], 0⟩ ⟨some 0, [(0, 100, 5)], 1⟩ from
          DTimerStep.trigger 0 5 ⟨none, [], 0⟩))
      (show DTimerStep 100 ⟨some 0, [(0, 100, 5)], 1⟩
          ⟨some 1, [(1, 103, 7)], 2⟩ from
        DTimerStep.trigger 3 7 ⟨some 0, [(0, 100, 5)], 1⟩))

/-! ## Behaviour in a host environment without the timing mechanism

`debounce` and `throttle` use `clearTimeout` / `setTimeout` unconditionally:
neither contains any capability check (the only capability check in the file
is `initScrollAnimations`'s `'IntersectionObserver' in window` guard).  In a
host with no timing mechanism, JavaScript name resolution of the missing
global throws a `ReferenceError` at the point of use; the `if hasTimers`
below models that name resolution, not a branch of the source. -/

/-- The debounced `trigger` body in a host with or without timers.  Its
first statement is `clearTimeout(timeout)`; with no timing mechanism that
very identifier fails to resolve and the call throws before any state
change or invocation of `func`. -/
def dTriggerHost (hasTimers : Bool) (wait : Nat) (s : DState α) (t : Nat)
    (a : α) : Except JSException (DState α) :=
  if hasTimers then .ok (dTrigger wait s t a)
  else .error (.referenceError "clearTimeout")

/-- The throttled `trigger` body in a host with no timers.  Since no reset
timer can ever have been armed, `inThrottle` is simply the stored flag.  A
leading call runs `func.apply(context, args)`, then `inThrottle = true`,
and then throws resolving `setTimeout` — leaving the flag stuck.  A call
with the flag set takes the empty else-branch and returns normally.  State
is `(inThrottle, invocation log)`; the result pairs the new state with the
exception, if one was thrown. -/
def tTriggerNoTimers (s : Bool × List α) (a : α) :
    (Bool × List α) × Option JSException :=
  if s.1 then (s, none)
  else ((true, s.2 ++ [a]), some (.referenceError "setTimeout"))

/-- Counterexample to C8 as stated: in a host without the timing mechanism
the utilities do not no-op — the first call to a debounced callable throws
a `ReferenceError`, and the first call to a throttled callable throws one
after invoking the action. -/
theorem no_timer_detection_counterexample :
    dTriggerHost false 100 (⟨none, []⟩ : DState Nat) 0 7
      = .error (.referenceError "clearTimeout") ∧
    tTriggerNoTimers ((false, []) : Bool × List Nat) 7
      = ((true, [7]), some (.referenceError "setTimeout")) :=
  ⟨rfl, rfl⟩

/-- Claim C8 amended: the utilities perform no timing-capability detection.
If the timing mechanism is unavailable, every call to a debounced callable
throws a `ReferenceError` (before invoking the action or changing state);
a leading call to a throttled callable invokes the action once and then
throws a `ReferenceError` arming the cooldown, after which the stuck flag
makes every further call a silent no-op.  Only the visibility-observation
capability is detected and degraded to a no-op, by `initScrollAnimations`. -/
theorem no_timer_detection_amended (wait : Nat) (s : DState α) (t : Nat)
    (a : α) (log : List α) (b : α) :
    dTriggerHost false wait s t a = .error (.referenceError "clearTimeout") ∧
    tTriggerNoTimers (false, log) b
      = ((true, log ++ [b]), some (.referenceError "setTimeout")) ∧
    (∀ (log₂ : List α) (c : α),
      tTriggerNoTimers (true, log₂) c = ((true, log₂), none)) ∧
    (∀ elems : List Nat, initScrollAnimations false elems = none) := by
  exact ⟨rfl, rfl, fun _ _ => rfl, fun _ => rfl⟩

/-! ## Propagation of exceptions thrown by the wrapped action

None of the three components contains a `try`/`catch`: an exception thrown
by the wrapped action leaves the scheduled or triggered callback unchanged.
Actions are modelled as `Except`-valued; the definitions below instrument
the same source lines as their pure counterparts (to which they are proved
to project when the action cannot throw). -/

/-- The debounce timer callback `later` with a fallible `func`:
`clearTimeout(timeout)` on the timer table (which cannot throw), then
`func(...args)` — whose result, exceptional or not, is the callback's. -/
def dLater (func : α → Except ε Unit) (s : DTimers α) (a : α) :
    DTimers α × Except ε Unit :=
  ({ s with live := clearTimeoutT s.live s.timeoutVar }, func a)

/-- The throttled `trigger` body with a fallible `func`.  When the call is
dropped, nothing runs.  When `func.apply(context, args)` runs and throws,
the two statements after it do not run: `inThrottle` is not set and no
reset timer is armed, so `resetAt` stays `none`; the invocation is logged
and the exception is the call's result. -/
def tTriggerF (func : Nat × α → Except ε Unit) (limit : Nat) (s : TState α)
    (t : Nat) (a : α) : TState α × Except ε Unit :=
  let s₀ : TState α :=
    match s.resetAt with
    | some r => if t < r then s else { s with resetAt := none }
    | none => s
  match s₀.resetAt with
  | some _ => (s₀, .ok ())
  | none =>
    match func (t, a) with
    | .ok () => ({ resetAt := some (t + limit),
                   invoked := s₀.invoked ++ [(t, a)] }, .ok ())
    | .error e => ({ s₀ with invoked := s₀.invoked ++ [(t, a)] }, .error e)

/-- The observer callback with a fallible reveal action: `entries.forEach`
rethrows the callback's exception, so a throwing reveal aborts the batch —
`observer.unobserve` after it does not run, later entries are not
processed, and the exception is the notification callback's result. -/
def ioCallbackF (reveal : Nat → Except ε Unit) (s : ObsState) :
    List (Nat × Bool) → ObsState × Except ε Unit
  | [] => (s, .ok ())
  | e :: rest =>
    if e.2 then
      match reveal e.1 with
      | .ok () =>
          ioCallbackF reveal
            { observed := s.observed.erase e.1, fired := s.fired ++ [e.1] }
            rest
      | .error err => ({ s with fired := s.fired ++ [e.1] }, .error err)
    else ioCallbackF reveal s rest

/-- With an action that cannot throw, the fallible throttle body projects to
the pure one. -/
theorem tTriggerF_ok (ε : Type) (limit : Nat) (s : TState α) (t : Nat)
    (a : α) :
    tTriggerF (fun _ => (Except.ok () : Except ε Unit)) limit s t a
      = (tTrigger limit s t a, Except.ok ()) := by
  cases s with
  | mk resetAt invoked =>
    cases resetAt with
    | none => rfl
    | some r =>
      by_cases h : t < r <;> simp [tTriggerF, tTrigger, h]

/-- With a reveal action that cannot throw, the fallible observer callback
projects to the pure one. -/
theorem ioCallbackF_ok (ε : Type) (s : ObsState)
    (entries : List (Nat × Bool)) :
    ioCallbackF (fun _ => (Except.ok () : Except ε Unit)) s entries
      = (ioCallback s entries, Except.ok ()) := by
  induction entries generalizing s with
  | nil => rfl
  | cons e rest ih =>
    simp only [ioCallback, List.foldl_cons] at ih ⊢
    by_cases hb : e.2
    · simp only [ioCallbackF, hb, if_true]
      exact ih ⟨s.observed.erase e.1, s.fired ++ [e.1]⟩
    · simp only [ioCallbackF, hb, if_false, Bool.false_eq_true]
      exact ih s

/-- Claim C9: neither the debounce wrapper, nor the throttle wrapper, nor
the observer's notification callback catches a throwing action: whenever
the wrapped action is invoked and throws, the same exception is the result
of the scheduled (`later`), triggered (throttle body) or notification
(observer) callback. -/
theorem wrapped_action_exceptions_propagate (func : α → Except ε Unit)
    (tfunc : Nat × α → Except ε Unit) (reveal : Nat → Except ε Unit)
    (e : ε) :
    (∀ (s : DTimers α) (a : α), func a = .error e →
      (dLater func s a).2 = .error e) ∧
    (∀ (limit : Nat) (s : TState α) (t : Nat) (a : α),
      (∀ r, s.resetAt = some r → r ≤ t) → tfunc (t, a) = .error e →
      (tTriggerF tfunc limit s t a).2 = .error e) ∧
    (∀ (s : ObsState) (x : Nat) (rest : List (Nat × Bool)),
      reveal x = .error e →
      (ioCallbackF reveal s ((x, true) :: rest)).2 = .error e) := by
  refine ⟨fun s a h => ?_, fun limit s t a hres h => ?_, fun s x rest h => ?_⟩
  · simp [dLater, h]
  · cases hr : s.resetAt with
    | none => simp [tTriggerF, hr, h]
    | some r =>
      have : ¬ t < r := not_lt.2 (hres r hr)
      simp [tTriggerF, hr, this, h]
  · simp [ioCallbackF, h]

/-- Witness for C9: an action throwing the exception `5` propagates it out
of the debounce timer callback, the throttle leading call, and the observer
notification. -/
theorem wrapped_action_exceptions_propagate_witness :
    (dLater (fun _ : Nat => Except.error 5) ⟨none, [], 0⟩ 3).2
        = Except.error 5 ∧
    (tTriggerF (fun _ : Nat × Nat => Except.error 5) 16 ⟨none, []⟩ 0 3).2
        = Except.error 5 ∧
    (ioCallbackF (fun _ : Nat => Except.error 5) ⟨[0], []⟩ [(0, true)]).2
        = Except.error 5 :=
  ⟨(wrapped_action_exceptions_propagate (fun _ : Nat => Except.error 5)
      (fun _ => Except.error 5) (fun _ => Except.error 5) 5).1
      ⟨none, [], 0⟩ 3 rfl,
   (wrapped_action_exceptions_propagate (fun _ : Nat => Except.error 5)
      (fun _ => Except.error 5) (fun _ => Except.error 5) 5).2.1
      16 ⟨none, []⟩ 0 3 (fun r hr => by simp at hr) rfl,
   (wrapped_action_exceptions_propagate (fun _ : Nat => Except.error 5)
      (fun _ => Except.error 5) (fun _ => Except.error 5) 5).2.2
      ⟨[0], []⟩ 0 [] rfl⟩

/-! ## `safeQuerySelector` and `safeQuerySelectorAll`

Source (`professional-script.js`, lines 2–18):

```js
const safeQuerySelector = (selector) => {
    try {
        return document.querySelector(selector);
    } catch (error) {
        console.warn(`...`, error);
        return null;
    }
};
const safeQuerySelectorAll = (selector) => {
    try {
        return document.querySelectorAll(selector);
    } catch (error) {
        console.warn(`...`, error);
        return [];
    }
};
```

The underlying DOM queries are parameters: `document.querySelector` returns
an element or `null` (`Option Nat`) or throws; `document.querySelectorAll`
returns a node list (`List Nat`) or throws.  The wrappers are total Lean
functions with plain return types: the `catch` converts every exception
into `null` / the empty collection, so no exception escapes. -/

/-- `safeQuerySelector`: the query's result on success, `null` if the query
throws (after a `console.warn`, which cannot throw). -/
def safeQuerySelector (querySelector : String → Except JSException (Option Nat))
    (selector : String) : Option Nat :=
  match querySelector selector with
  | .ok r => r
  | .error _ => none

/-- `safeQuerySelectorAll`: the query's result on success, the empty
collection if the query throws. -/
def safeQuerySelectorAll (queryAll : String → Except JSException (List Nat))
    (selector : String) : List Nat :=
  match queryAll selector with
  | .ok r => r
  | .error _ => []

/-- Claim C10: for every selector, `safeQuerySelector` and
`safeQuerySelectorAll` return a plain value (they never throw — their types
have no exceptional outcome): `null` respectively the empty collection when
the underlying DOM query throws, and the query's result unchanged
otherwise. -/
theorem safe_query_wrappers_never_throw
    (querySelector : String → Except JSException (Option Nat))
    (queryAll : String → Except JSException (List Nat)) (sel : String) :
    (∀ e, querySelector sel = .error e → safeQuerySelector querySelector sel
        = none) ∧
    (∀ r, querySelector sel = .ok r → safeQuerySelector querySelector sel
        = r) ∧
    (∀ e, queryAll sel = .error e → safeQuerySelectorAll queryAll sel = []) ∧
    (∀ r, queryAll sel = .ok r → safeQuerySelectorAll queryAll sel = r) := by
  refine ⟨fun e h => ?_, fun r h => ?_, fun e h => ?_, fun r h => ?_⟩ <;>
    simp [safeQuerySelector, safeQuerySelectorAll, h]

/-- Witness for C10: a query throwing a `SyntaxError` (an invalid selector)
yields `null` / `[]`, and a succeeding query's result passes through. -/
theorem safe_query_wrappers_never_throw_witness :
    safeQuerySelector (fun _ => .error (.syntaxError "bad selector")) ":(("
      = none ∧
    safeQuerySelectorAll (fun _ => .ok [1, 2]) ".nav-link" = [1, 2] :=
  ⟨(safe_query_wrappers_never_throw
      (fun _ => .error (.syntaxError "bad selector")) (fun _ => .ok []) ":((").1
      (.syntaxError "bad selector") rfl,
   (safe_query_wrappers_never_throw (fun _ => .error (.syntaxError "x"))
      (fun _ => .ok [1, 2]) ".nav-link").2.2.2 [1, 2] rfl⟩

end Portfolio
